import Mathlib

/-!
Verification of the DELTA slide-deck generator (`src/app.py`) against its
natural-language specification.

The Python program is shallowly embedded: pure string manipulation is
translated directly; calls into external libraries (the `json` decoder,
BeautifulSoup's text extraction, matplotlib plotting, the Google Slides
service) are modelled either as explicit function parameters or as command
traces / state transitions, as documented on each definition.
-/

namespace Delta

/-! ## Python string primitives -/

/-- Substring test on character lists, modelling Python's `needle in hay`
for strings: true iff `needle` occurs contiguously inside `hay`. -/
def listContainsSub : List Char → List Char → Bool
  | [], needle => needle.isEmpty
  | c :: t, needle => needle.isPrefixOf (c :: t) || listContainsSub t needle

/-- Python `needle in hay` on strings. -/
def strContains (hay needle : String) : Bool :=
  listContainsSub hay.data needle.data

/-- Python `s.startswith(p)`. -/
def strStartsWith (s p : String) : Bool :=
  p.data.isPrefixOf s.data

/-- Python `s.lower()` (ASCII case folding suffices for the headers and
doctype markers the program compares). -/
def strLower (s : String) : String :=
  ⟨s.data.map Char.toLower⟩

/-- Python `s.strip()`: remove leading and trailing whitespace. -/
def pyStrip (s : String) : String :=
  ⟨((s.data.dropWhile Char.isWhitespace).reverse.dropWhile Char.isWhitespace).reverse⟩

/-! ## JSON values

Values produced by Python's `json.loads`.  The decoder itself (an external
library) is not re-implemented; functions that call `json.loads` take a
`decode : String → Option Json` parameter standing for it (`none` models a
raised `JSONDecodeError`). -/

inductive Json where
  | null
  | bool (b : Bool)
  | num (n : Int)
  | str (s : String)
  | arr (xs : List Json)
  | obj (kvs : List (String × Json))

/-- Python exceptions that subscripting / attribute access can raise. -/
inductive PyExc where
  | keyError
  | indexError
  | typeError
  | attributeError
deriving DecidableEq

/-- Python `j[k]` for a string key `k`: dict lookup (KeyError when the key
is missing), TypeError on any non-dict value. -/
def pyIndexStr (j : Json) (k : String) : Except PyExc Json :=
  match j with
  | .obj kvs =>
    match kvs.find? (fun kv => kv.1 = k) with
    | some kv => .ok kv.2
    | none => .error .keyError
  | _ => .error .typeError

/-- Python `j[i]` for an integer index `i`: list indexing (IndexError when
out of range), string indexing yields a one-character string, dicts raise
KeyError (no integer keys occur in decoded JSON), other values TypeError. -/
def pyIndexNat (j : Json) (i : Nat) : Except PyExc Json :=
  match j with
  | .arr xs =>
    match xs.get? i with
    | some x => .ok x
    | none => .error .indexError
  | .str s =>
    match s.data.get? i with
    | some c => .ok (.str ⟨[c]⟩)
    | none => .error .indexError
  | .obj _ => .error .keyError
  | _ => .error .typeError

/-! ## extract_json (src/app.py lines 31-48) -/

/-- Prefix of `cs` up to and including the last occurrence of `cl`
(empty when `cl` does not occur). -/
def upToLast (cl : Char) (cs : List Char) : List Char :=
  ((cs.reverse.dropWhile (fun c => !(c == cl))).reverse)

/-- Model of `re.search(r'(OP.*CL)', text, re.DOTALL)`: the leftmost
position holding `op` and followed by some later `cl` starts the match;
the greedy `.*` extends it to the last `cl` in the text. -/
def greedyGroup (op cl : Char) : List Char → Option (List Char)
  | [] => none
  | c :: rest =>
    if c == op && rest.contains cl then some (c :: upToLast cl rest)
    else greedyGroup op cl rest

/-- `re.search(r'({.*})', text, re.DOTALL)`, group 1. -/
def objSearch (text : String) : Option String :=
  (greedyGroup '{' '}' text.data).map fun cs => ⟨cs⟩

/-- `re.search(r'(\[.*\])', text, re.DOTALL)`, group 1. -/
def arrSearch (text : String) : Option String :=
  (greedyGroup '[' ']' text.data).map fun cs => ⟨cs⟩

/-- `extract_json` (src/app.py lines 31-48).  `decode` stands for
`json.loads`; a `try/except` around it becomes a match on the `Option`.
The object attempt falls through to the array attempt both when no object
pattern matches and when its decode fails; a final failure models the
`raise ValueError`. -/
def extract_json (decode : String → Option Json) (text : String) :
    Except String Json :=
  let arrAttempt : Except String Json :=
    match arrSearch text with
    | some g =>
      match decode g with
      | some v => .ok v
      | none => .error "No valid JSON could be extracted."
    | none => .error "No valid JSON could be extracted."
  match objSearch text with
  | some g =>
    match decode g with
    | some v => .ok v
    | none => arrAttempt
  | none => arrAttempt

/-- Modelled from the spec's description of fallback extraction: search for
the object pattern and attempt decode; only if that fails, search for the
array pattern and attempt decode; first successful decode wins (object
before array), otherwise fail. -/
def extractJsonSpec (decode : String → Option Json) (text : String) :
    Except String Json :=
  match (objSearch text).bind decode with
  | some v => .ok v
  | none =>
    match (arrSearch text).bind decode with
    | some v => .ok v
    | none => .error "No valid JSON could be extracted."

/-! ## Response interpretation (src/app.py lines 70-97)

`cohere_text_generate` first performs the HTTP call (external I/O, lines
51-68); the part verified here is the interpretation of the response it
receives: `contentType` and `bodyText` stand for `response.headers["Content-Type"]`
and `response.text`, `decode` for `response.json()` (`none` = raised
`JSONDecodeError`), and `htmlText` for
`BeautifulSoup(..., "html.parser").get_text(separator="\n", strip=True)`. -/

/-- Failures of the response interpretation, named as in the spec; raw
`TypeError`/`AttributeError` escaping the `except (KeyError, IndexError)`
clause are carried by `uncaught`. -/
inductive InterpErr where
  | emptyResponse
  | malformedJSON
  | missingField
  | emptyParsedHTML
  | uncaught (e : PyExc)
deriving DecidableEq

/-- `data["generations"][0]["text"]` followed by `.strip()`'s requirement
that the value be a string (`AttributeError` otherwise). -/
def genLookup (data : Json) : Except PyExc String :=
  match pyIndexStr data "generations" with
  | .error e => .error e
  | .ok g =>
    match pyIndexNat g 0 with
    | .error e => .error e
    | .ok g0 =>
      match pyIndexStr g0 "text" with
      | .error e => .error e
      | .ok (.str s) => .ok s
      | .ok _ => .error .attributeError

/-- Response interpretation of `cohere_text_generate` (src/app.py lines
70-97): empty-body gate on the stripped text, then the
`application/json` branch, then the `text/html`-or-doctype branch, then
the verbatim fallback. -/
def cohere_interpret_response (decode : String → Option Json)
    (htmlText : String → String) (contentType bodyText : String) :
    Except InterpErr String :=
  let raw_text := pyStrip bodyText
  if raw_text = "" then .error .emptyResponse
  else
    let content_type := strLower contentType
    if strContains content_type "application/json" then
      match decode bodyText with
      | none => .error .malformedJSON
      | some data =>
        match genLookup data with
        | .ok generated_text => .ok (pyStrip generated_text)
        | .error .keyError => .error .missingField
        | .error .indexError => .error .missingField
        | .error e => .error (.uncaught e)
    else if strContains content_type "text/html" ||
        strStartsWith (strLower raw_text) "<!doctype html" then
      let parsed_text := htmlText raw_text
      if parsed_text = "" then .error .emptyParsedHTML
      else .ok parsed_text
    else .ok raw_text

/-! ## Outline resolution (src/app.py lines 181-195)

`generate_slide_outline` builds a prompt and calls `cohere_text_generate`
(external I/O); the part verified here starts from the interpreted outline
text that call returned.  `decode` again stands for `json.loads`. -/

/-- The only failure `generate_slide_outline` itself raises after a
successful upstream call (`raise ValueError("Empty output from API.")`). -/
inductive OutlineErr where
  | emptyGeneration
deriving DecidableEq

/-- Outline resolution (src/app.py lines 181-195): empty-text gate, direct
decode, regex-scoped extraction fallback, and the `slides = None` degrade
path when extraction also fails (the `except Exception` catches every
failure of `extract_json`). -/
def generate_slide_outline (decode : String → Option Json)
    (outline_text : String) : Except OutlineErr (Option Json × String) :=
  if outline_text = "" then .error .emptyGeneration
  else
    match decode outline_text with
    | some slides => .ok (some slides, outline_text)
    | none =>
      match extract_json decode outline_text with
      | .ok slides => .ok (some slides, outline_text)
      | .error _ => .ok (none, outline_text)

/-! ## Chart generation (src/app.py lines 127-158)

matplotlib is the external plotting collaborator; `generate_chart` is
modelled as the exact sequence of plotting commands it issues, in order
(the rendered PNG is a function of this command sequence). -/

/-- A chart record as read by `generate_chart` / `convert_outline_to_md`:
each field may be absent, `.get` defaults apply at use sites. -/
structure ChartInfo where
  type : Option String
  title : Option String
  labels : Option (List String)
  values : Option (List Int)
deriving DecidableEq

/-- One matplotlib call, with the literal arguments the source passes. -/
inductive PlotCmd where
  | styleUse (style : String)
  | figure (w h : Nat)
  | bar (labels : List String) (values : List Int) (color : String)
  | line (labels : List String) (values : List Int) (marker ls color : String)
  | title (t color : String)
  | tightLayout
  | savefig (format facecolor : String)
deriving DecidableEq

/-- `generate_chart` (src/app.py lines 127-158) as its matplotlib command
trace: defaults via `.get`, a bar call only for `type == "bar"`, a line
call only for `type == "line"`, no data call otherwise. -/
def generate_chart (chart_info : ChartInfo) : List PlotCmd :=
  let chart_type := chart_info.type.getD "bar"
  let title := chart_info.title.getD ""
  let labels := chart_info.labels.getD []
  let values := chart_info.values.getD []
  [PlotCmd.styleUse "dark_background", PlotCmd.figure 4 3]
    ++ (if chart_type = "bar" then [PlotCmd.bar labels values "#4B0082"]
        else if chart_type = "line" then
          [PlotCmd.line labels values "o" "-" "#4B0082"]
        else [])
    ++ [PlotCmd.title title "white", PlotCmd.tightLayout,
        PlotCmd.savefig "PNG" "black"]

/-! ## Slide records -/

/-- A slide record as consumed by the renderers: a decoded JSON object
whose known keys may each be absent (`.get` defaults / `in` tests at the
use sites).  A chart value, when present, is a `ChartInfo`. -/
structure SlideRec where
  title : Option String
  content : Option String
  image_prompt : Option String
  chart : Option ChartInfo
deriving DecidableEq

/-! ## Markdown rendering (src/app.py lines 198-219) -/

/-- The accumulating loop of `convert_outline_to_md`: one iteration per
slide, `md +=` translated to appends on the accumulator, `enumerate(slides,
start=1)` to the `idx` counter. -/
def convertMdLoop (md : String) (idx : Nat) : List SlideRec → String
  | [] => md
  | slide :: rest =>
    let title := slide.title.getD "Untitled Slide"
    let content := slide.content.getD ""
    let md := md ++ ("# Slide " ++ toString idx ++ ": " ++ title ++ "\n\n")
    let md := md ++ ("**Content:**\n\n" ++ content ++ "\n\n")
    let md :=
      match slide.image_prompt with
      | some image_prompt => md ++ ("**Image Prompt:** " ++ image_prompt ++ "\n\n")
      | none => md
    let md :=
      match slide.chart with
      | some chart =>
        let md := md ++ "**Chart Details:**\n"
        let md := md ++ ("- Type: " ++ chart.type.getD "" ++ "\n")
        let md := md ++ ("- Title: " ++ chart.title.getD "" ++ "\n")
        let labels := chart.labels.getD []
        let values := chart.values.getD []
        if !labels.isEmpty && !values.isEmpty then
          md ++ ("- Labels: " ++ String.intercalate ", " labels ++ "\n")
             ++ ("- Values: " ++ String.intercalate ", " (values.map toString) ++ "\n")
        else md
      | none => md
    convertMdLoop (md ++ "\n---\n\n") (idx + 1) rest

/-- `convert_outline_to_md` (src/app.py lines 198-219). -/
def convert_outline_to_md (slides : List SlideRec) : String :=
  convertMdLoop "" 1 slides

/-- Spec-side shape of the optional image-prompt line of a section. -/
def imagePromptMd (slide : SlideRec) : String :=
  match slide.image_prompt with
  | some image_prompt => "**Image Prompt:** " ++ image_prompt ++ "\n\n"
  | none => ""

/-- Spec-side shape of the chart-details block: type line, title line, and
the labels/values lines exactly when both sequences are non-empty. -/
def chartDetailsMd (chart : ChartInfo) : String :=
  "**Chart Details:**\n"
    ++ ("- Type: " ++ chart.type.getD "" ++ "\n")
    ++ ("- Title: " ++ chart.title.getD "" ++ "\n")
    ++ (if !(chart.labels.getD []).isEmpty && !(chart.values.getD []).isEmpty then
          ("- Labels: " ++ String.intercalate ", " (chart.labels.getD []) ++ "\n")
            ++ ("- Values: " ++ String.intercalate ", " ((chart.values.getD []).map toString) ++ "\n")
        else "")

/-- Spec-side shape of the optional chart-details block of a section. -/
def chartMd (slide : SlideRec) : String :=
  match slide.chart with
  | some chart => chartDetailsMd chart
  | none => ""

/-- Spec-side shape of one Markdown section: heading with 1-based index and
title, content block, optional image-prompt line, optional chart block,
separator rule. -/
def mdSection (idx : Nat) (slide : SlideRec) : String :=
  ("# Slide " ++ toString idx ++ ": " ++ slide.title.getD "Untitled Slide" ++ "\n\n")
    ++ ("**Content:**\n\n" ++ slide.content.getD "" ++ "\n\n")
    ++ imagePromptMd slide
    ++ chartMd slide
    ++ "\n---\n\n"

/-- Concatenation of the sections of consecutive slides, indices counting
up from `idx`. -/
def mdSections (idx : Nat) : List SlideRec → String
  | [] => ""
  | slide :: rest => mdSection idx slide ++ mdSections (idx + 1) rest

/-! ## Google Slides creation (src/app.py lines 222-300)

The remote document service is the external collaborator.  Its state is
modelled from its API semantics: a presentation holds an ordered page
list, created shapes, and inserted texts; `presentations().create` yields
a presentation containing one default slide; a `createSlide` request with
`insertionIndex` inserts the new page at that zero-based index (the
source's `"1"` is the integer 1).  The per-slide `uuid4().hex` tokens are
modelled by the slide's position, which preserves their uniqueness. -/

/-- Insert an element at a zero-based index (append when the index is at
or beyond the end). -/
def insertAtIdx {α : Type} : Nat → α → List α → List α
  | 0, a, l => a :: l
  | _ + 1, a, [] => [a]
  | n + 1, a, x :: xs => x :: insertAtIdx n a xs

/-- The mutation requests `create_google_slides` issues, with the literal
geometry of the source. -/
inductive GRequest where
  | createSlide (objectId : String) (insertionIndex : Nat)
  | createShape (objectId pageObjectId : String)
      (height width translateX translateY : Nat)
  | insertText (objectId : String) (insertionIndex : Nat) (text : String)
deriving DecidableEq

/-- Remote presentation state: page ids in presentation order, plus the
shapes (id, page) and texts (shape id, text) created so far. -/
structure GPresentation where
  pages : List String
  shapes : List (String × String)
  texts : List (String × String)
deriving DecidableEq

/-- Effect of one mutation request on the remote presentation. -/
def applyGRequest (p : GPresentation) : GRequest → GPresentation
  | .createSlide objectId insertionIndex =>
    { p with pages := insertAtIdx insertionIndex objectId p.pages }
  | .createShape objectId pageObjectId _ _ _ _ =>
    { p with shapes := p.shapes ++ [(objectId, pageObjectId)] }
  | .insertText objectId _ text =>
    { p with texts := p.texts ++ [(objectId, text)] }

/-- The page id the `n`-th outline slide is created under. -/
def slideObjId (n : Nat) : String := "slide_" ++ toString n

/-- The one batch of requests issued for the `n`-th outline slide
(src/app.py lines 230-296): create a slide at `insertionIndex` 1, a title
box with the title text, a content box with the content text. -/
def slideRequests (n : Nat) (slide : SlideRec) : List GRequest :=
  let slide_id := slideObjId n
  let title_box_id := "title_" ++ toString n
  let content_box_id := "content_" ++ toString n
  [GRequest.createSlide slide_id 1,
   GRequest.createShape title_box_id slide_id 50 400 50 50,
   GRequest.insertText title_box_id 0 (slide.title.getD "Untitled Slide"),
   GRequest.createShape content_box_id slide_id 200 400 50 150,
   GRequest.insertText content_box_id 0 (slide.content.getD "")]

/-- A freshly created presentation: one default slide. -/
def newPresentation : GPresentation :=
  { pages := ["default_slide"], shapes := [], texts := [] }

/-- The per-slide loop of `create_google_slides`: one `batchUpdate` per
outline slide, in outline order. -/
def createGSlidesLoop (pres : GPresentation) (n : Nat) :
    List SlideRec → GPresentation
  | [] => pres
  | slide :: rest =>
    createGSlidesLoop ((slideRequests n slide).foldl applyGRequest pres)
      (n + 1) rest

/-- `create_google_slides` (src/app.py lines 222-300): create a
presentation, then issue one batch per outline slide. -/
def create_google_slides (slides_outline : List SlideRec) : GPresentation :=
  createGSlidesLoop newPresentation 0 slides_outline

/-! ## Concrete collaborator instances used by witnesses -/

/-- A `json.loads` instance that fails on every input. -/
def decodeNone : String → Option Json := fun _ => none

/-- A `json.loads` instance that succeeds on every input. -/
def decodeSomeNull : String → Option Json := fun _ => some Json.null

/-- An HTML text-extraction instance returning the input unchanged. -/
def htmlTextId : String → String := fun s => s

/-! ## Theorems -/

/-- Claim C4: for every string that is not directly decodable as JSON,
fallback extraction first searches for the object pattern and attempts to
decode it, and only if that fails searches for the array pattern and
attempts to decode it; the first successful decode is returned, object
pattern always tried before array pattern.  Stated as: `extract_json`
coincides with the spec-side chain `extractJsonSpec` (object search and
decode, or else array search and decode, or else failure). -/
theorem extract_json_object_before_array
    (decode : String → Option Json) (text : String)
    (hfail : decode text = none) :
    extract_json decode text = extractJsonSpec decode text := by
  unfold extract_json extractJsonSpec
  cases hobj : objSearch text with
  | none =>
    cases harr : arrSearch text with
    | none => simp
    | some g => cases decode g <;> simp
  | some g =>
    cases hdec : decode g with
    | none =>
      cases harr : arrSearch text with
      | none => simp [hdec]
      | some g2 => cases decode g2 <;> simp [hdec]
    | some v => simp [hdec]

/-- Witness for C4 at a concrete undecodable text. -/
theorem extract_json_object_before_array_witness :
    extract_json decodeNone "no json in this reply"
      = extractJsonSpec decodeNone "no json in this reply" :=
  extract_json_object_before_array decodeNone "no json in this reply" rfl

/-- Claim C1 counterexample: the empty outline text is producible by the
upstream call (a whitespace-only `generations[0].text` is stripped to ""
and returned), both direct decoding and regex-scoped extraction fail on
it, yet `generate_slide_outline` raises `ValueError("Empty output from
API.")` there instead of returning the nil deck with the raw text. -/
theorem generate_slide_outline_empty_text_counterexample :
    decodeNone "" = none
    ∧ extract_json decodeNone "" = .error "No valid JSON could be extracted."
    ∧ generate_slide_outline decodeNone "" = .error .emptyGeneration
    ∧ (generate_slide_outline decodeNone "").isOk = false :=
  ⟨rfl, rfl, rfl, rfl⟩

/-- Claim C1 (amended): for every non-empty outline text returned by the
text-generation call, if direct JSON decoding fails and regex-scoped
extraction also fails, resolve returns the nil deck together with the raw
outline text instead of propagating an error; an exception can escape
resolve only if the upstream generation call itself fails or the outline
text is empty (EmptyGeneration). -/
theorem generate_slide_outline_fallback_total
    (decode : String → Option Json) (outline_text : String)
    (hne : outline_text ≠ "")
    (hdec : decode outline_text = none)
    (hext : extract_json decode outline_text
      = .error "No valid JSON could be extracted.") :
    generate_slide_outline decode outline_text = .ok (none, outline_text) := by
  unfold generate_slide_outline
  simp [hne, hdec, hext]

/-- Witness for C1 at a concrete commentary-only outline text. -/
theorem generate_slide_outline_fallback_total_witness :
    generate_slide_outline decodeNone "Sure. Here is a deck outline in prose."
      = .ok (none, "Sure. Here is a deck outline in prose.") :=
  generate_slide_outline_fallback_total decodeNone
    "Sure. Here is a deck outline in prose." (by decide) rfl rfl

/-- Claim C5: for every body that is non-empty (not whitespace-only, the
interpreter's emptiness gate) whose content-type contains text/html and
not application/json, the interpreter never attempts JSON decoding (its
result does not depend on the decoder at all) and returns the extracted
HTML text when non-empty, failing with EmptyParsedHTML when empty. -/
theorem interpret_html_no_json_decode
    (decode1 decode2 : String → Option Json) (htmlText : String → String)
    (contentType bodyText : String)
    (hbody : pyStrip bodyText ≠ "")
    (hjson : strContains (strLower contentType) "application/json" = false)
    (hhtml : strContains (strLower contentType) "text/html" = true) :
    cohere_interpret_response decode1 htmlText contentType bodyText
      = cohere_interpret_response decode2 htmlText contentType bodyText
    ∧ cohere_interpret_response decode1 htmlText contentType bodyText
      = (if htmlText (pyStrip bodyText) = ""
         then .error .emptyParsedHTML
         else .ok (htmlText (pyStrip bodyText))) := by
  unfold cohere_interpret_response
  simp [hbody, hjson, hhtml]

/-- Witness for C5 at a concrete HTML error page. -/
theorem interpret_html_no_json_decode_witness :
    cohere_interpret_response decodeSomeNull htmlTextId
        "text/html; charset=utf-8" "<p>Service overloaded</p>"
      = cohere_interpret_response decodeNone htmlTextId
        "text/html; charset=utf-8" "<p>Service overloaded</p>"
    ∧ cohere_interpret_response decodeSomeNull htmlTextId
        "text/html; charset=utf-8" "<p>Service overloaded</p>"
      = .ok "<p>Service overloaded</p>" :=
  ⟨(interpret_html_no_json_decode decodeSomeNull decodeNone htmlTextId
      "text/html; charset=utf-8" "<p>Service overloaded</p>"
      (by decide) rfl rfl).1,
   ((interpret_html_no_json_decode decodeSomeNull decodeNone htmlTextId
      "text/html; charset=utf-8" "<p>Service overloaded</p>"
      (by decide) rfl rfl).2).trans rfl⟩

/-- Claim C6 counterexample: a plain-text body with trailing whitespace —
content-type contains neither application/json nor text/html and the body
does not begin with a doctype marker — is returned stripped, not
verbatim. -/
theorem interpret_fallback_strips_counterexample :
    strContains (strLower "text/plain") "application/json" = false
    ∧ strContains (strLower "text/plain") "text/html" = false
    ∧ strStartsWith (strLower "hello  ") "<!doctype html" = false
    ∧ cohere_interpret_response decodeNone htmlTextId "text/plain" "hello  "
      = .ok "hello"
    ∧ ("hello" : String) ≠ "hello  " :=
  ⟨rfl, rfl, rfl, rfl, by decide⟩

/-- Claim C6 (amended): for every non-empty (not whitespace-only) body
whose content-type contains neither application/json nor text/html and
whose stripped text does not begin case-insensitively with an HTML doctype
marker, the interpreter returns the body text stripped of leading and
trailing whitespace, otherwise unchanged. -/
theorem interpret_fallback_returns_stripped
    (decode : String → Option Json) (htmlText : String → String)
    (contentType bodyText : String)
    (hbody : pyStrip bodyText ≠ "")
    (hjson : strContains (strLower contentType) "application/json" = false)
    (hhtml : strContains (strLower contentType) "text/html" = false)
    (hdoc : strStartsWith (strLower (pyStrip bodyText)) "<!doctype html" = false) :
    cohere_interpret_response decode htmlText contentType bodyText
      = .ok (pyStrip bodyText) := by
  unfold cohere_interpret_response
  simp [hbody, hjson, hhtml, hdoc]

/-- Witness for C6 at a concrete unknown content-type. -/
theorem interpret_fallback_returns_stripped_witness :
    cohere_interpret_response decodeNone htmlTextId
        "application/octet-stream" "  raw model text  "
      = .ok (pyStrip "  raw model text  ") :=
  interpret_fallback_returns_stripped decodeNone htmlTextId
    "application/octet-stream" "  raw model text  "
    (by decide) rfl rfl rfl

/-- The JSON body and value of the C7 counterexample:
`{"generations": [{"text": " "}]}` — the generated-text field is present
but whitespace-only. -/
def dataC7 : Json :=
  Json.obj [("generations", Json.arr [Json.obj [("text", Json.str " ")]])]

/-- The raw body whose `json.loads` result is `dataC7`. -/
def bodyC7 : String := "\x7b\"generations\": [\x7b\"text\": \" \"\x7d]\x7d"

/-- `json.loads` restricted to the C7 counterexample body. -/
def decodeC7 : String → Option Json :=
  fun s => if s = bodyC7 then some dataC7 else none

/-- Claim C7 counterexample: when `generations[0].text` is present but
whitespace-only, the interpreter returns the empty string instead of
failing with MissingField (the `except (KeyError, IndexError)` clause does
not fire on an empty value). -/
theorem interpret_json_empty_text_counterexample :
    genLookup dataC7 = .ok " "
    ∧ cohere_interpret_response decodeC7 htmlTextId "application/json" bodyC7
      = .ok ""
    ∧ (Except.ok "" : Except InterpErr String) ≠ .error .missingField :=
  ⟨rfl, rfl, fun h => Except.noConfusion h⟩

/-- Claim C7 (amended): for every response whose content-type contains
application/json and which decodes as JSON, the interpreter fails with
MissingField exactly when the `generations[0].text` lookup raises a
missing-key or missing-index error; when the field is present as a string
its stripped text is returned, even when that text is empty. -/
theorem interpret_json_missing_vs_empty
    (decode : String → Option Json) (htmlText : String → String)
    (contentType bodyText : String) (data : Json)
    (hbody : pyStrip bodyText ≠ "")
    (hjson : strContains (strLower contentType) "application/json" = true)
    (hdec : decode bodyText = some data) :
    ((genLookup data = .error .keyError ∨ genLookup data = .error .indexError) →
      cohere_interpret_response decode htmlText contentType bodyText
        = .error .missingField)
    ∧ (∀ s : String, genLookup data = .ok s →
      cohere_interpret_response decode htmlText contentType bodyText
        = .ok (pyStrip s)) := by
  unfold cohere_interpret_response
  constructor
  · rintro (h | h) <;> simp [hbody, hjson, hdec, h]
  · intro s h
    simp [hbody, hjson, hdec, h]

/-- The JSON body and value of the C7 witness: an object with no
`generations` key. -/
def dataW7 : Json := Json.obj [("id", Json.str "x")]

/-- The raw body whose `json.loads` result is `dataW7`. -/
def bodyW7 : String := "\x7b\"id\": \"x\"\x7d"

/-- `json.loads` restricted to the C7 witness body. -/
def decodeW7 : String → Option Json :=
  fun s => if s = bodyW7 then some dataW7 else none

/-- Witness for C7: a JSON response missing the field fails with
MissingField. -/
theorem interpret_json_missing_vs_empty_witness :
    cohere_interpret_response decodeW7 htmlTextId "application/json" bodyW7
      = .error .missingField :=
  (interpret_json_missing_vs_empty decodeW7 htmlTextId "application/json"
    bodyW7 dataW7 (by decide) rfl rfl).1 (Or.inl rfl)

/-- The spec's mismatched-length example: labels Q1,Q2,Q3 with values
10,20 (and no explicit type, so the `.get` default `bar` applies). -/
def chartMismatch : ChartInfo :=
  ⟨none, none, some ["Q1", "Q2", "Q3"], some [10, 20]⟩

/-- Claim C3 counterexample: on the mismatched chart the bar plotting call
receives the three labels and two values unchanged — the truncated
equal-length call the claim describes never occurs. -/
theorem generate_chart_no_truncation_counterexample :
    PlotCmd.bar ["Q1", "Q2", "Q3"] [10, 20] "#4B0082" ∈ generate_chart chartMismatch
    ∧ ¬ PlotCmd.bar ["Q1", "Q2"] [10, 20] "#4B0082" ∈ generate_chart chartMismatch
    ∧ (["Q1", "Q2", "Q3"] : List String).length ≠ ([10, 20] : List Int).length := by
  decide

/-- Claim C3 (amended): `generate_chart` performs no truncation — any bar
or line plotting call it issues receives the labels and values sequences
exactly as read from the chart record, mismatched lengths included;
tolerating the mismatch is left entirely to the external plotting
library. -/
theorem generate_chart_passes_args_unchanged
    (chart_info : ChartInfo) (labels : List String) (values : List Int)
    (color : String)
    (h : PlotCmd.bar labels values color ∈ generate_chart chart_info
      ∨ PlotCmd.line labels values "o" "-" color ∈ generate_chart chart_info) :
    labels = chart_info.labels.getD [] ∧ values = chart_info.values.getD [] := by
  rcases h with h | h <;>
    (dsimp only [generate_chart] at h; split at h <;> simp_all)

/-- Witness for C3 at the mismatched chart. -/
theorem generate_chart_passes_args_unchanged_witnesses :
    (["Q1", "Q2", "Q3"] : List String) = chartMismatch.labels.getD []
    ∧ ([10, 20] : List Int) = chartMismatch.values.getD [] :=
  generate_chart_passes_args_unchanged chartMismatch ["Q1", "Q2", "Q3"]
    [10, 20] "#4B0082" (Or.inl (by decide))

/-- A chart record with the unrecognized kind `pie`. -/
def chartPie : ChartInfo := ⟨some "pie", some "Quarterly", some ["Q1"], some [10]⟩

/-- The same chart record with kind `bar`. -/
def chartPieAsBar : ChartInfo := ⟨some "bar", some "Quarterly", some ["Q1"], some [10]⟩

/-- Claim C9 counterexample: the unrecognized kind `pie` is not rendered
like `bar` — no bar call is issued at all, so the command traces (and
hence the chart images) differ. -/
theorem generate_chart_unknown_kind_counterexample :
    generate_chart chartPie ≠ generate_chart chartPieAsBar
    ∧ ¬ PlotCmd.bar ["Q1"] [10] "#4B0082" ∈ generate_chart chartPie := by
  decide

/-- Claim C9 (amended): an unrecognized chart kind is not an error, but it
does not fall back to bar either — no data-series plotting call is made,
producing a chart with only the styling, title and save commands. -/
theorem generate_chart_unknown_kind_no_plot
    (chart_info : ChartInfo)
    (hbar : chart_info.type.getD "bar" ≠ "bar")
    (hline : chart_info.type.getD "bar" ≠ "line") :
    generate_chart chart_info
      = [PlotCmd.styleUse "dark_background", PlotCmd.figure 4 3,
         PlotCmd.title (chart_info.title.getD "") "white",
         PlotCmd.tightLayout, PlotCmd.savefig "PNG" "black"] := by
  unfold generate_chart
  simp [hbar, hline]

/-- Witness for C9 at the pie chart. -/
theorem generate_chart_unknown_kind_no_plot_witness :
    generate_chart chartPie
      = [PlotCmd.styleUse "dark_background", PlotCmd.figure 4 3,
         PlotCmd.title (chartPie.title.getD "") "white",
         PlotCmd.tightLayout, PlotCmd.savefig "PNG" "black"] :=
  generate_chart_unknown_kind_no_plot chartPie (by decide) (by decide)

/-- First outline slide of the C2 failing input. -/
def slideA : SlideRec := ⟨some "A", some "first slide", none, none⟩

/-- Second outline slide of the C2 failing input. -/
def slideB : SlideRec := ⟨some "B", some "second slide", none, none⟩

/-- Claim C2 (code bug): because every `createSlide` request carries the
fixed `insertionIndex` 1, each outline slide is inserted before the
previously created ones — for the two-slide outline A,B the remote
presentation ends with pages default, B, A: the reverse of deck order.
The texts conjunct ties the page ids to the outline slides. -/
theorem create_google_slides_reverses_order :
    (create_google_slides [slideA, slideB]).pages
      = ["default_slide", slideObjId 1, slideObjId 0]
    ∧ (create_google_slides [slideA, slideB]).pages
      ≠ ["default_slide", slideObjId 0, slideObjId 1]
    ∧ (create_google_slides [slideA, slideB]).texts
      = [("title_0", "A"), ("content_0", "first slide"),
         ("title_1", "B"), ("content_1", "second slide")] := by
  decide

/-- The accumulating Markdown loop emits exactly the concatenation of the
per-slide sections, in order, after the initial accumulator. -/
theorem convertMdLoop_eq (l : List SlideRec) : ∀ (md : String) (idx : Nat),
    convertMdLoop md idx l = md ++ mdSections idx l := by
  induction l with
  | nil =>
    intro md idx
    simp [convertMdLoop, mdSections]
  | cons s rest ih =>
    intro md idx
    simp only [convertMdLoop]
    rw [ih, mdSections]
    cases hip : s.image_prompt with
    | none =>
      cases hch : s.chart with
      | none =>
        simp only [hip, hch, mdSection, imagePromptMd, chartMd]
        simp [-String.reduceAppend, String.append_assoc]
      | some c =>
        simp only [hip, hch, mdSection, imagePromptMd, chartMd, chartDetailsMd]
        cases hcond : (!(c.labels.getD []).isEmpty && !(c.values.getD []).isEmpty) <;>
          simp [-String.reduceAppend, hcond, String.append_assoc]
    | some p =>
      cases hch : s.chart with
      | none =>
        simp only [hip, hch, mdSection, imagePromptMd, chartMd]
        simp [-String.reduceAppend, String.append_assoc]
      | some c =>
        simp only [hip, hch, mdSection, imagePromptMd, chartMd, chartDetailsMd]
        cases hcond : (!(c.labels.getD []).isEmpty && !(c.values.getD []).isEmpty) <;>
          simp [-String.reduceAppend, hcond, String.append_assoc]

/-- Claim C8: for a 3-slide deck where slide 2 has a chart, slide 3 has an
image prompt, and slide 1 has neither, Markdown rendering is exactly the
three sections in deck order — each section headed with its 1-based index
and title and terminated by the rule separator, with the chart-details
block present only in section 2 and the image-prompt line present only in
section 3. -/
theorem convert_outline_to_md_three_slide_sections
    (s1 s2 s3 : SlideRec) (c : ChartInfo) (p : String)
    (h1i : s1.image_prompt = none) (h1c : s1.chart = none)
    (h2i : s2.image_prompt = none) (h2c : s2.chart = some c)
    (h3i : s3.image_prompt = some p) (h3c : s3.chart = none) :
    convert_outline_to_md [s1, s2, s3]
      = mdSection 1 s1 ++ (mdSection 2 s2 ++ mdSection 3 s3)
    ∧ mdSection 1 s1
      = ("# Slide " ++ toString 1 ++ ": " ++ s1.title.getD "Untitled Slide" ++ "\n\n")
          ++ ("**Content:**\n\n" ++ s1.content.getD "" ++ "\n\n")
          ++ "\n---\n\n"
    ∧ mdSection 2 s2
      = ("# Slide " ++ toString 2 ++ ": " ++ s2.title.getD "Untitled Slide" ++ "\n\n")
          ++ ("**Content:**\n\n" ++ s2.content.getD "" ++ "\n\n")
          ++ chartDetailsMd c
          ++ "\n---\n\n"
    ∧ mdSection 3 s3
      = ("# Slide " ++ toString 3 ++ ": " ++ s3.title.getD "Untitled Slide" ++ "\n\n")
          ++ ("**Content:**\n\n" ++ s3.content.getD "" ++ "\n\n")
          ++ ("**Image Prompt:** " ++ p ++ "\n\n")
          ++ "\n---\n\n" := by
  refine ⟨?_, ?_, ?_, ?_⟩
  · rw [convert_outline_to_md, convertMdLoop_eq]
    simp [mdSections]
  · simp [mdSection, imagePromptMd, chartMd, h1i, h1c]
  · simp [mdSection, imagePromptMd, chartMd, h2i, h2c]
  · simp [mdSection, imagePromptMd, chartMd, h3i, h3c]

/-- First slide of the C8 witness deck: no image, no chart. -/
def wSlide1 : SlideRec := ⟨some "Intro", some "welcome", none, none⟩

/-- Chart of the second C8 witness slide. -/
def wChart : ChartInfo := ⟨some "line", some "Revenue", some ["Q1", "Q2"], some [3, 4]⟩

/-- Second slide of the C8 witness deck: has a chart, no image. -/
def wSlide2 : SlideRec := ⟨some "Numbers", some "the data", none, some wChart⟩

/-- Third slide of the C8 witness deck: has an image prompt, no chart. -/
def wSlide3 : SlideRec := ⟨some "Vision", some "the future", some "a sunrise", none⟩

/-- Witness for C8 at a concrete 3-slide deck. -/
theorem convert_outline_to_md_three_slide_sections_witness :
    convert_outline_to_md [wSlide1, wSlide2, wSlide3]
      = mdSection 1 wSlide1 ++ (mdSection 2 wSlide2 ++ mdSection 3 wSlide3) :=
  (convert_outline_to_md_three_slide_sections wSlide1 wSlide2 wSlide3 wChart
    "a sunrise" rfl rfl rfl rfl rfl rfl).1

/-- Claim C10: for every slide whose chart record has an empty labels
sequence or an empty values sequence, the Markdown renderer still emits
the chart-details block with its Type and Title lines but omits both the
Labels and the Values line; both lines appear exactly when labels and
values are each non-empty. -/
theorem convert_outline_to_md_chart_lines_iff_nonempty
    (s : SlideRec) (c : ChartInfo) (hc : s.chart = some c) :
    convert_outline_to_md [s] = mdSection 1 s
    ∧ ((c.labels.getD [] = [] ∨ c.values.getD [] = []) →
        chartMd s
          = "**Chart Details:**\n"
              ++ ("- Type: " ++ c.type.getD "" ++ "\n")
              ++ ("- Title: " ++ c.title.getD "" ++ "\n"))
    ∧ (c.labels.getD [] ≠ [] → c.values.getD [] ≠ [] →
        chartMd s
          = "**Chart Details:**\n"
              ++ ("- Type: " ++ c.type.getD "" ++ "\n")
              ++ ("- Title: " ++ c.title.getD "" ++ "\n")
              ++ (("- Labels: " ++ String.intercalate ", " (c.labels.getD []) ++ "\n")
                  ++ ("- Values: "
                      ++ String.intercalate ", " ((c.values.getD []).map toString)
                      ++ "\n"))) := by
  refine ⟨?_, ?_, ?_⟩
  · rw [convert_outline_to_md, convertMdLoop_eq]
    simp [mdSections]
  · rintro (h | h) <;> simp [chartMd, hc, chartDetailsMd, h]
  · intro h1 h2
    rcases List.exists_cons_of_ne_nil h1 with ⟨a, as, hl⟩
    rcases List.exists_cons_of_ne_nil h2 with ⟨b, bs, hv⟩
    simp [chartMd, hc, chartDetailsMd, hl, hv]

/-- Chart of the C10 witness slide: one label, no values. -/
def wChartC10 : ChartInfo := ⟨some "bar", some "Count", some ["only"], some []⟩

/-- The C10 witness slide. -/
def wSlideC10 : SlideRec := ⟨some "Stats", some "numbers", none, some wChartC10⟩

/-- Witness for C10 at a slide whose chart has no values. -/
theorem convert_outline_to_md_chart_lines_iff_nonempty_witness :
    convert_outline_to_md [wSlideC10] = mdSection 1 wSlideC10
    ∧ chartMd wSlideC10
      = "**Chart Details:**\n"
          ++ ("- Type: " ++ wChartC10.type.getD "" ++ "\n")
          ++ ("- Title: " ++ wChartC10.title.getD "" ++ "\n") :=
  ⟨(convert_outline_to_md_chart_lines_iff_nonempty wSlideC10 wChartC10 rfl).1,
   (convert_outline_to_md_chart_lines_iff_nonempty wSlideC10 wChartC10 rfl).2.1
     (Or.inr rfl)⟩

end Delta
